import Mathlib

/-!
Verification of the valuesmart backend functions.

This file shallowly embeds the two request-triggered backend functions
(`buyerActions/lambda_function.py` and `playAd/lambda_function.py`) and
proves or refutes the frozen claims about them.

Modelling conventions:
* JSON values are the inductive `JVal`; `json.loads` of the request body is
  modelled by an `Option JVal` field on the event (`none` = the body string
  is not valid JSON; an absent body key defaults to the string "\x7b\x7d" in the
  source, hence is represented as `some (JVal.obj [])`).
* The relational store and the object store are fields of an explicit
  `World` value; a handler is a function `Event → World → Except PyExc
  (Response × World)`, where `Except.error` models an uncaught Python
  exception escaping the handler.
* Presigned-URL generation is a function field `sign : String → Nat →
  String` of the world (the playAd function uses a fallible signer
  `String → Nat → Except String String`, modelling `ClientError`).
* `dbExc` models SQLAlchemy raising at the first query/commit of the
  invocation (e.g. an unreachable database).
-/

namespace ValueSmart

/-- JSON values produced by `json.loads`. Numbers are modelled as integers
(the payloads the claims concern are integer identifiers). -/
inductive JVal where
  | null : JVal
  | bool : Bool → JVal
  | num : Int → JVal
  | str : String → JVal
  | arr : List JVal → JVal
  | obj : List (String × JVal) → JVal
deriving Repr

/-- Python truthiness of a JSON value (`if x:`). -/
def pyTruthy : JVal → Bool
  | .null => false
  | .bool b => b
  | .num n => n != 0
  | .str s => s != ""
  | .arr xs => !xs.isEmpty
  | .obj fs => !fs.isEmpty

/-- Python `str.strip(c)` restricted to a single strip character:
removes all leading and trailing occurrences of `c`. -/
def pyStripChar (c : Char) (s : String) : String :=
  ⟨((s.data.dropWhile (· = c)).reverse.dropWhile (· = c)).reverse⟩

/-- Python `str.replace(old, new)` for single-character old/new patterns:
replaces every occurrence. -/
def pyReplaceChar (old new : Char) (s : String) : String :=
  ⟨s.data.map (fun ch => if ch = old then new else ch)⟩

/-- Python `str.lower()` (ASCII), character by character. -/
def pyLower (s : String) : String :=
  ⟨s.data.map Char.toLower⟩

/-- Decimal digit run → value; `none` when empty or a non-digit occurs. -/
def digitsVal : List Char → Option Nat
  | [] => none
  | cs => cs.foldl (fun acc c =>
      match acc with
      | none => none
      | some n => if c.isDigit then some (n * 10 + (c.toNat - 48)) else none)
      (some 0)

/-- Lenient string-to-integer conversion used by the validation layer
(pydantic lax mode coerces integer-shaped strings): an optional leading
minus sign followed by at least one decimal digit. -/
def pyIntOfString (s : String) : Option Int :=
  match s.data with
  | '-' :: rest => (digitsVal rest).map (fun n => -(n : Int))
  | l => (digitsVal l).map (fun n => (n : Int))

/-- Validation-layer coercion of a JSON value to an `int` field
(pydantic v2 lax mode: accepts integers and integer-shaped strings,
rejects booleans, null, and everything else). -/
def coerceInt : JVal → Option Int
  | .num n => some n
  | .str s => pyIntOfString s
  | _ => none

/-- Exceptions that can escape a handler into the top-level boundary. -/
inductive PyExc where
  | typeError : PyExc
  | sqlAlchemy : PyExc
deriving DecidableEq, Repr

/-- The HTTP-shaped response structure built by the response formatter. -/
structure Response where
  statusCode : Nat
  headers : List (String × String)
  body : JVal

/-- Header block emitted by `send_response` in buyerActions. -/
def buyerHeaders : List (String × String) :=
  [("Access-Control-Allow-Origin", "*"), ("Content-Type", "application/json")]

/-- `send_response` from buyerActions: fixed CORS headers, JSON body. -/
def send_response (status : Nat) (body : JVal) : Response :=
  ⟨status, buyerHeaders, body⟩

/-- An HTTP-shaped trigger event.  `body` is the parse result of the body
string (`none` = malformed JSON; a missing body key defaults to an empty
JSON object in the source). -/
structure Event where
  httpMethod : Option String
  path : Option String
  queryStringParameters : Option (List (String × JVal))
  body : Option JVal

/-- Rows of `equipment_capabilities_fct`. -/
structure FactRow where
  id : Int
  unit_operation_id : Int
  unit_operation : String
  market_segment_id : Int
  market_segment_name : String
  division_id : Int
  division_name : String
deriving DecidableEq, Repr

/-- Rows of `market_segments`. -/
structure SegRow where
  id : Int
  image_url : Option String
deriving DecidableEq, Repr

/-- Rows of `equipments`. -/
structure EquipRow where
  id : Int
  machine_name : String
  machine_image_url : Option String
deriving DecidableEq, Repr

/-- Rows of `buyer_enquired_equipments`. -/
structure BuyerRow where
  id : Int
  buyer_id : Int
  market_segment_id : Int
  unit_operation_id : Int
  equipment_id : Int
  capacity_id : Option Int
  e_registered_details : Option JVal
  archive : String

/-- The world a buyerActions invocation runs against: the relational
 tables, the cached S3 object (`none` = missing/unreadable, `some none` =
 present but not valid JSON), the presigned-URL signer, the next
 autoincrement id, and an optional pending database exception raised at
 the first query or commit. -/
structure World where
  facts : List FactRow
  segments : List SegRow
  equipments : List EquipRow
  enquiries : List BuyerRow
  nextId : Int
  cacheObj : Option (Option JVal)
  sign : String → Nat → String
  dbExc : Option PyExc

/-- `get_s3_url`: a falsy key (None or the empty string) yields `None`
without a signing call; otherwise the key is signed with the given
expiry. -/
def get_s3_url (sign : String → Nat → String) (object_key : Option String)
    (expires : Nat) : Option String :=
  match object_key with
  | none => none
  | some s => if s = "" then none else some (sign s expires)

/-- Truthiness of an optional string key (`if not object_key`). -/
def pyKeyTruthy : Option String → Bool
  | none => false
  | some s => s != ""

/-- Option String → JSON value. -/
def optStrJ : Option String → JVal
  | none => .null
  | some s => .str s

/-! ## Validation layer (pydantic schemas) -/

/-- Validation of one required integer field of a GET schema: returns the
pydantic-style error entries (field name, message) for this field, in
declaration order; empty when the field validates. -/
def fieldErrs (m : List (String × JVal)) (name : String) :
    List (String × String) :=
  match List.lookup name m with
  | none => [(name, "Field required")]
  | some v =>
    match coerceInt v with
    | some _ => []
    | none => [(name, "Input should be a valid integer")]

/-- All validation errors of `GetUnitOpSchema` (divisionId,
marketSegmentId), in field-declaration order; pydantic reports every
failed field together. -/
def unitopErrors (m : List (String × JVal)) : List (String × String) :=
  fieldErrs m "divisionId" ++ fieldErrs m "marketSegmentId"

/-- All validation errors of `GetEquipSchema` (divisionId, marketSegmentId,
unitOperationId). -/
def equipErrors (m : List (String × JVal)) : List (String × String) :=
  fieldErrs m "divisionId" ++ fieldErrs m "marketSegmentId" ++
    fieldErrs m "unitOperationId"

/-- pydantic `e.errors()` rendered as a JSON body. -/
def errsJson (errs : List (String × String)) : JVal :=
  .arr (errs.map (fun e =>
    .obj [("loc", .arr [.str e.1]), ("msg", .str e.2)]))

/-- The coerced value of a validated required int field (only meaningful
when the field has no validation errors). -/
def fieldVal (m : List (String × JVal)) (name : String) : Int :=
  ((List.lookup name m).bind coerceInt).getD 0

/-- Validated data of `PostEnquirySchema`. -/
structure PostData where
  buyer_id : Int
  market_segment_id : Int
  unit_operation_id : Int
  equipment_id : Int
  capacity_id : Option Int
  e_registered_details : Option JVal

/-- A required `int` field of the POST body: present and coercible. -/
def reqIntField (fs : List (String × JVal)) (name : String) : Option Int :=
  (List.lookup name fs).bind coerceInt

/-- An `Optional[int]` field: absent or null → `some none`; coercible →
`some (some n)`; otherwise a validation failure. -/
def optIntField (fs : List (String × JVal)) (name : String) :
    Option (Option Int) :=
  match List.lookup name fs with
  | none => some none
  | some .null => some none
  | some v => (coerceInt v).map some

/-- An `Optional[Dict[str, Any]]` field: absent or null → `some none`; a
JSON object → kept; any other value is a validation failure. -/
def optDictField (fs : List (String × JVal)) (name : String) :
    Option (Option JVal) :=
  match List.lookup name fs with
  | none => some none
  | some .null => some none
  | some (.obj o) => some (some (.obj o))
  | some _ => none

/-- `PostEnquirySchema(**body)` on a JSON-object body: validates the four
required int fields and the two optional fields; extra keys are ignored
(pydantic default). `none` models `ValidationError`. -/
def validatePostEnquiry (fs : List (String × JVal)) : Option PostData :=
  match reqIntField fs "buyer_id", reqIntField fs "market_segment_id",
        reqIntField fs "unit_operation_id", reqIntField fs "equipment_id",
        optIntField fs "capacity_id",
        optDictField fs "e_registered_details" with
  | some b, some m, some u, some e, some c, some r =>
    some ⟨b, m, u, e, c, r⟩
  | _, _, _, _, _, _ => none

/-! ## Action handlers (buyerActions) -/

/-- Outcome of one action handler: an uncaught exception, or a response
together with the possibly-updated world. -/
abbrev HandlerOut := Except PyExc (Response × World)

/-- A buyerActions action handler. -/
abbrev Handler := Event → World → HandlerOut

/-- The dedup-ed row selection of `get_div_mktseg`: join the capability
facts to market segments on segment id, select the five columns,
DISTINCT. -/
def divMktsegRows (w : World) :
    List (Int × String × Int × String × Option String) :=
  (w.facts.flatMap (fun f =>
    w.segments.filterMap (fun s =>
      if f.market_segment_id = s.id then
        some (f.division_id, f.division_name, f.market_segment_id,
              f.market_segment_name, s.image_url)
      else none))).dedup

/-- One output row of `get_div_mktseg`: the selected columns plus the
added `imageUrl` presigned field (default expiry 300). -/
def divMktsegRowJ (sign : String → Nat → String)
    (r : Int × String × Int × String × Option String) : JVal :=
  .obj [("division_id", .num r.1), ("division_name", .str r.2.1),
        ("market_segment_id", .num r.2.2.1),
        ("market_segment_name", .str r.2.2.2.1),
        ("image_url", optStrJ r.2.2.2.2),
        ("imageUrl", optStrJ (get_s3_url sign r.2.2.2.2 300))]

/-- `get_div_mktseg`: no input validation; one joined DISTINCT query; each
row's image key signed via `get_s3_url` (default 300s). A database
error escapes the handler. -/
def get_div_mktseg (_ev : Event) (w : World) : HandlerOut :=
  match w.dbExc with
  | some e => .error e
  | none =>
    .ok (send_response 200
      (.obj [("response",
        .arr ((divMktsegRows w).map (divMktsegRowJ w.sign)))]), w)

/-- The dedup-ed row selection of `get_div_mktseg_unitop` for validated
parameters. -/
def unitopRows (w : World) (dv ms : Int) :
    List (Int × String × Int × String) :=
  ((w.facts.filter (fun f =>
      f.division_id = dv && f.market_segment_id = ms)).map (fun f =>
    (f.division_id, f.division_name, f.unit_operation_id,
     f.unit_operation))).dedup

/-- One output row of `get_div_mktseg_unitop`. -/
def unitopRowJ (r : Int × String × Int × String) : JVal :=
  .obj [("division_id", .num r.1), ("division_name", .str r.2.1),
        ("unit_operation_id", .num r.2.2.1),
        ("unit_operation", .str r.2.2.2)]

/-- `get_div_mktseg_unitop`: validates `GetUnitOpSchema` against the query
parameters (`or` defaults a missing map to empty); on ValidationError
returns 400 with `e.errors()` and the world untouched; otherwise runs the
filtered DISTINCT query. -/
def get_div_mktseg_unitop (ev : Event) (w : World) : HandlerOut :=
  let m := ev.queryStringParameters.getD []
  match unitopErrors m with
  | [] =>
    match w.dbExc with
    | some e => .error e
    | none =>
      .ok (send_response 200
        (.obj [("response",
          .arr ((unitopRows w (fieldVal m "divisionId")
            (fieldVal m "marketSegmentId")).map unitopRowJ))]), w)
  | errs => .ok (send_response 400 (.obj [("error", errsJson errs)]), w)

/-- The dedup-ed row selection of `get_div_mktseg_unitop_equip`: filtered
capability facts joined to equipment details on `EquipmentDetails.id ==
EquipmentCapabilitiesFct.id` (as in the source). -/
def equipRows (w : World) (dv ms uo : Int) :
    List (Int × String × Int × Option String) :=
  ((w.facts.filter (fun f =>
      f.division_id = dv && f.market_segment_id = ms &&
        f.unit_operation_id = uo)).flatMap (fun f =>
    w.equipments.filterMap (fun e =>
      if e.id = f.id then
        some (f.division_id, e.machine_name, e.id, e.machine_image_url)
      else none))).dedup

/-- One output row of `get_div_mktseg_unitop_equip` with its added
`machineImageUrl` presigned field. -/
def equipRowJ (sign : String → Nat → String)
    (r : Int × String × Int × Option String) : JVal :=
  .obj [("division_id", .num r.1), ("machine_name", .str r.2.1),
        ("id", .num r.2.2.1),
        ("machine_image_url", optStrJ r.2.2.2),
        ("machineImageUrl", optStrJ (get_s3_url sign r.2.2.2 300))]

/-- `get_div_mktseg_unitop_equip`: validates `GetEquipSchema`; on
ValidationError returns 400 with all field errors; otherwise runs the
joined DISTINCT query and signs each machine image key (default 300s). -/
def get_div_mktseg_unitop_equip (ev : Event) (w : World) : HandlerOut :=
  let m := ev.queryStringParameters.getD []
  match equipErrors m with
  | [] =>
    match w.dbExc with
    | some e => .error e
    | none =>
      .ok (send_response 200
        (.obj [("response",
          .arr ((equipRows w (fieldVal m "divisionId")
            (fieldVal m "marketSegmentId")
            (fieldVal m "unitOperationId")).map (equipRowJ w.sign)))]), w)
  | errs => .ok (send_response 400 (.obj [("error", errsJson errs)]), w)

/-! ## Cache read handler -/

/-- In-place update of an existing dict key (`d[k] = v` keeps the key's
position; appends if absent, which is unreachable at our call sites). -/
def setField : List (String × JVal) → String → JVal → List (String × JVal)
  | [], k, v => [(k, v)]
  | (k', v') :: rest, k, v =>
    if k' = k then (k, v) :: rest else (k', v') :: setField rest k v

/-- Processing of one market-segment element in the cache blob: a dict
whose truthy `imageUrl` (a string key — boto3 rejects non-string keys) is
replaced in place by a 60-second signed URL; a falsy or absent `imageUrl`
is left alone.  `none` models an exception inside the loop (caught by the
handler's blanket `except`). -/
def processMs (sign : String → Nat → String) (ms : JVal) : Option JVal :=
  match ms with
  | .obj fs =>
    match List.lookup "imageUrl" fs with
    | none => some (.obj fs)
    | some v =>
      if pyTruthy v then
        match v with
        | .str s => some (.obj (setField fs "imageUrl" (.str (sign s 60))))
        | _ => none
      else some (.obj fs)
  | _ => none

/-- `Option`-valued map over a list, failing as soon as one element
fails. -/
def mapMOpt (f : JVal → Option JVal) : List JVal → Option (List JVal)
  | [] => some []
  | x :: xs =>
    match f x, mapMOpt f xs with
    | some y, some ys => some (y :: ys)
    | _, _ => none

/-- Processing of one division element: `division.get("marketSegments",
[])` is iterated and each element processed.  A missing key or an empty
iterable (empty list, empty string, empty dict) leaves the division
unchanged; a non-empty string or dict yields string elements whose `.get`
raises; a non-iterable raises directly. -/
def processDivision (sign : String → Nat → String) (d : JVal) :
    Option JVal :=
  match d with
  | .obj fs =>
    match List.lookup "marketSegments" fs with
    | none => some (.obj fs)
    | some (.arr xs) =>
      (mapMOpt (processMs sign) xs).map (fun ys =>
        .obj (setField fs "marketSegments" (.arr ys)))
    | some (.str s) => if s = "" then some (.obj fs) else none
    | some (.obj o) => if o.isEmpty then some (.obj fs) else none
    | some _ => none
  | _ => none

/-- The whole-blob transformation performed by `get_div_mktseg_cache`
after a successful fetch and parse: `for division in data` requires an
iterable; list elements are processed as divisions; iterating a non-empty
string or dict yields strings on which `.get` raises; everything else
raises.  `none` models any such exception. -/
def cacheProcess (sign : String → Nat → String) (data : JVal) :
    Option JVal :=
  match data with
  | .arr ds => (mapMOpt (processDivision sign) ds).map .arr
  | .str s => if s = "" then some (.str s) else none
  | .obj o => if o.isEmpty then some (.obj o) else none
  | _ => none

/-- The 404 body of the cache handler's blanket `except`. -/
def cacheMissResp : Response :=
  send_response 404 (.obj [("error", .str "Cache not found or invalid")])

/-- `get_div_mktseg_cache`: fetch the fixed object, parse it, transform it,
return 200; any exception anywhere in the body (missing object, parse
failure, structural mismatch during the loops) yields the generic 404. -/
def get_div_mktseg_cache (_ev : Event) (w : World) : HandlerOut :=
  match w.cacheObj with
  | some (some data) =>
    match cacheProcess w.sign data with
    | some out => .ok (send_response 200 (.obj [("response", out)]), w)
    | none => .ok (cacheMissResp, w)
  | _ => .ok (cacheMissResp, w)

/-! ## Create-enquiry handler -/

/-- The row built by `BuyerEnquiredEquipment(**data.model_dump())` once
persisted: the six validated fields, a fresh autoincrement id, and the
server-default archive flag "N". -/
def mkEnquiryRow (id : Int) (d : PostData) : BuyerRow :=
  ⟨id, d.buyer_id, d.market_segment_id, d.unit_operation_id,
   d.equipment_id, d.capacity_id, d.e_registered_details, "N"⟩

/-- The 400 body of the create-enquiry handler. -/
def invalidInputResp : Response :=
  send_response 400 (.obj [("error", .str "Invalid Input")])

/-- `post_buyer_enquiry`: parse the body (malformed JSON → caught
`JSONDecodeError` → 400); splat it into the schema (a valid-JSON
non-object raises `TypeError`, which the handler does NOT catch);
validate (`ValidationError` → 400); persist one row and return 201 with
the new id.  A commit-time database error escapes the handler. -/
def post_buyer_enquiry (ev : Event) (w : World) : HandlerOut :=
  match ev.body with
  | none => .ok (invalidInputResp, w)
  | some (.obj fs) =>
    match validatePostEnquiry fs with
    | none => .ok (invalidInputResp, w)
    | some d =>
      match w.dbExc with
      | some e => .error e
      | none =>
        .ok (send_response 201
          (.obj [("message", .str "Enquiry submitted"),
                 ("id", .num w.nextId)]),
         { w with enquiries := w.enquiries ++ [mkEnquiryRow w.nextId d],
                  nextId := w.nextId + 1 })
  | some _ => .error .typeError

/-! ## Router and top-level boundary -/

/-- The routing key: lowercased method, "_", and the path with
leading/trailing "/" stripped and every internal "/" turned into "_". -/
def routingKeyStr (method path : String) : String :=
  pyLower method ++ "_" ++ pyReplaceChar '/' '_' (pyStripChar '/' path)

/-- The routing key of an event (`event.get` defaults both to ""). -/
def routingKey (ev : Event) : String :=
  routingKeyStr (ev.httpMethod.getD "") (ev.path.getD "")

/-- The static routing table — exactly five entries. -/
def actions : List (String × Handler) :=
  [("get_get_div_mktseg", get_div_mktseg),
   ("get_get_div_mktseg_unitop", get_div_mktseg_unitop),
   ("get_get_div_mktseg_unitop_equip", get_div_mktseg_unitop_equip),
   ("get_get_div_mktseg_cache", get_div_mktseg_cache),
   ("post_buyer_enquiry", post_buyer_enquiry)]

/-- Session lifecycle events of one invocation, in order. -/
inductive SessEvent where
  | acquired : SessEvent
  | rolledBack : SessEvent
  | closed : SessEvent
deriving DecidableEq, Repr

/-- The buyerActions 404 route-miss response. -/
def routeNotFoundResp : Response :=
  send_response 404 (.obj [("error", .str "Route not found")])

/-- The buyerActions catch-all 500 response. -/
def internalErrorResp : Response :=
  send_response 500 (.obj [("error", .str "Internal Server Error")])

/-- `lambda_handler` of buyerActions: route; on a miss return 404 before
any session is opened; otherwise open a session, run the handler, roll
back and return 500 on any exception, and close the session in
`finally`.  The third component is the ordered session-event trace. -/
def lambda_handler (ev : Event) (w : World) :
    Response × World × List SessEvent :=
  match List.lookup (routingKey ev) actions with
  | none => (routeNotFoundResp, w, [])
  | some h =>
    match h ev w with
    | .ok (r, w') => (r, w', [.acquired, .closed])
    | .error _ =>
      (internalErrorResp, w, [.acquired, .rolledBack, .closed])

/-! ## The playAd function -/

namespace PlayAd

/-- Modelled from the spec: `SlotBookingRequest` rows (models.py is not
part of src/): an object-storage key `url`, a relation `booking_date_id`
to `CalendarTimeRates`, and an `approval_status`. -/
structure SlotBookingRequest where
  url : Option String
  booking_date_id : Int
  approval_status : String
deriving DecidableEq, Repr

/-- Modelled from the spec: `CalendarTimeRates` rows (models.py is not
part of src/): an id, a calendar `booking_date` (abstract day value) and
an `hour` label such as "14:00". -/
structure CalendarTimeRates where
  id : Int
  booking_date : Int
  hour : String
deriving DecidableEq, Repr

/-- The instant captured once at invocation start (`datetime.now()`),
reduced to what the handler reads from it: the calendar date, the hour of
day, and the ISO-8601 rendering. -/
structure Now where
  date : Int
  hourOfDay : Nat
  iso : String

/-- `now.strftime("%H:00")`: the zero-padded hour label. -/
def hourLabel (h : Nat) : String :=
  (if h < 10 then "0" else "") ++ toString h ++ ":00"

/-- The playAd world: the two tables, a fallible signer (`ClientError` is
modelled by `Except.error`), a pending database exception, and a pending
`get_session` initialization exception. -/
structure PlayWorld where
  bookings : List SlotBookingRequest
  calendar : List CalendarTimeRates
  sign : String → Nat → Except String String
  dbExc : Option ValueSmart.PyExc
  initExc : Option ValueSmart.PyExc

/-- Header block emitted by `send_return_status`. -/
def playHeaders : List (String × String) :=
  [("Content-Type", "application/json"), ("Access-Control-Allow-Origin", "*")]

/-- `send_return_status` from playAd. -/
def send_return_status (status : Nat) (body : ValueSmart.JVal) :
    ValueSmart.Response :=
  ⟨status, playHeaders, body⟩

/-- The urls produced by the join-and-filter query of `get_play_ad`, in
row order: bookings joined to calendar rows on `booking_date_id = id`,
filtered to today's date, the current hour label, and approval status
exactly "approved". -/
def playMatches (now : Now) (w : PlayWorld) : List (Option String) :=
  w.bookings.flatMap (fun b =>
    w.calendar.filterMap (fun c =>
      if b.booking_date_id = c.id && c.booking_date = now.date &&
          c.hour = hourLabel now.hourOfDay &&
          b.approval_status = "approved" then
        some b.url
      else none))

/-- `query.limit(1).scalar()` followed by the `if not s3_key` falsiness
check, collapsed to the non-empty key of the first matching row (if
any). -/
def firstApprovedKey (now : Now) (w : PlayWorld) : Option String :=
  match (playMatches now w).head? with
  | some (some s) => if s = "" then none else some s
  | _ => none

/-- `get_play_ad`: compute the slot values once, run the query (a
database error re-raises to the top-level boundary), return 404 when the
scalar is falsy, otherwise sign with expiry 300 (`ClientError` → 500 with
a distinct message) and return 200 with url, ISO timestamp and the hour
label. -/
def get_play_ad (now : Now) (w : PlayWorld) :
    Except ValueSmart.PyExc ValueSmart.Response :=
  match w.dbExc with
  | some e => .error e
  | none =>
    match firstApprovedKey now w with
    | none =>
      .ok (send_return_status 404
        (.obj [("message", .str "No approved content for this slot")]))
    | some k =>
      match w.sign k 300 with
      | .error _ =>
        .ok (send_return_status 500
          (.obj [("error", .str "Failed to generate access URL")]))
      | .ok u =>
        .ok (send_return_status 200
          (.obj [("url", .str u), ("timestamp", .str now.iso),
                 ("slot", .str (hourLabel now.hourOfDay))]))

/-- playAd's `lambda_handler`: acquire a session (an initialization
failure is caught before any session exists, so the trace stays empty),
run `get_play_ad`, map `SQLAlchemyError` to 503 and anything else to 500,
and close the session in `finally` whenever one was acquired. -/
def lambda_handler (now : Now) (w : PlayWorld) :
    ValueSmart.Response × List ValueSmart.SessEvent :=
  match w.initExc with
  | some e =>
    if e = .sqlAlchemy then
      (send_return_status 503
        (.obj [("error", .str "Service temporarily unavailable")]), [])
    else
      (send_return_status 500
        (.obj [("error", .str "Internal server error")]), [])
  | none =>
    match get_play_ad now w with
    | .ok r => (r, [.acquired, .closed])
    | .error e =>
      if e = .sqlAlchemy then
        (send_return_status 503
          (.obj [("error", .str "Service temporarily unavailable")]),
         [.acquired, .closed])
      else
        (send_return_status 500
          (.obj [("error", .str "Internal server error")]),
         [.acquired, .closed])

end PlayAd

/-! ## Process configuration (connection string and bucket name)

The source of both functions contains the environment reads for
DB_USER / DB_PASS / DB_HOST / DB_NAME (and, in playAd, BUCKET_NAME) only
as comments; the f-strings that assemble the connection URIs then refer
to those names.  We embed Python name resolution enough to evaluate the
f-strings in the scope each one actually executes in. -/

namespace Config

/-- A chunk of a Python f-string: literal text or an interpolated name. -/
inductive PyStrPart where
  | lit : String → PyStrPart
  | var : String → PyStrPart

/-- Evaluation of an f-string given the set of names actually bound in
the enclosing scope and an arbitrary valuation of the bound names; an
unbound name raises `NameError`. -/
def evalFString (scope : List String) (env : String → String) :
    List PyStrPart → Except String String
  | [] => .ok ""
  | .lit s :: rest =>
    (evalFString scope env rest).map (fun t => s ++ t)
  | .var n :: rest =>
    if n ∈ scope then (evalFString scope env rest).map (fun t => env n ++ t)
    else .error ("NameError: " ++ n)

/-- The f-string of buyerActions line 20:
DATABASE_URL = f"mysql+pymysql://...". -/
def databaseUrlParts : List PyStrPart :=
  [.lit "mysql+pymysql://", .var "DB_USER", .lit ":", .var "DB_PASS",
   .lit "@", .var "DB_HOST", .lit "/", .var "DB_NAME"]

/-- The f-string of playAd's `get_session`:
connection_uri = f"mysql+pymysql://...". -/
def connectionUriParts : List PyStrPart :=
  [.lit "mysql+pymysql://", .var "DB_USER", .lit ":", .var "DB_PASS",
   .lit "@", .var "DB_HOST", .lit "/", .var "DB_NAME"]

/-- The names bound at module level in buyerActions when the
`DATABASE_URL` assignment executes: the imported names and `Base`.  The
`os.environ.get` reads of the DB_* names are comments in the source and
bind nothing. -/
def buyerScope : List String :=
  ["os", "json", "boto3", "Optional", "Dict", "Any", "List",
   "BaseModel", "Field", "ValidationError", "create_engine", "Column",
   "Integer", "String", "JSON", "Enum", "Index", "func", "select",
   "Boolean", "Date", "ForeignKey", "declarative_base", "sessionmaker",
   "TIMESTAMP", "Base"]

/-- The module-level names of playAd visible inside `get_session` (and
inside `get_play_ad`): imports, globals and the function names.  The
DB_* and BUCKET_NAME reads are comments in the source and bind
nothing. -/
def playScope : List String :=
  ["os", "json", "logging", "datetime", "boto3", "ClientError",
   "create_engine", "sessionmaker", "SQLAlchemyError",
   "SlotBookingRequest", "CalendarTimeRates", "logger", "_engine",
   "_SessionLocal", "s3_client", "get_session", "send_return_status",
   "lambda_handler", "get_play_ad"]

/-- The bucket name of buyerActions: the hardcoded literal from line 33,
not read from configuration. -/
def buyerBucketName : String := "valuesmart"

end Config

/-! ## Specification-side definitions

These follow the wording of the (amended) claims and are compared with
the source-derived handler definitions above. -/

/-- Follows the amended claim C1: a body that is malformed JSON, or a
JSON object failing validation, yields 400 and no row; a JSON object
passing validation yields exactly one new row holding the validated
fields with archive "N" and a freshly assigned id, and 201 with the id
and a confirmation message; a valid-JSON non-object body raises out of
the handler (so the router answers 500) and writes no row. -/
def postEnquiryAmendedSpec (ev : Event) (w : World) : HandlerOut :=
  match ev.body with
  | none => .ok (invalidInputResp, w)
  | some (.obj fs) =>
    match validatePostEnquiry fs with
    | none => .ok (invalidInputResp, w)
    | some d =>
      .ok (send_response 201
        (.obj [("message", .str "Enquiry submitted"),
               ("id", .num w.nextId)]),
       { w with
          enquiries := w.enquiries ++
            [{ id := w.nextId, buyer_id := d.buyer_id,
               market_segment_id := d.market_segment_id,
               unit_operation_id := d.unit_operation_id,
               equipment_id := d.equipment_id,
               capacity_id := d.capacity_id,
               e_registered_details := d.e_registered_details,
               archive := "N" }],
          nextId := w.nextId + 1 })
  | some _ => .error .typeError

/-- Well-structuredness of one market-segment element of the cache blob,
per the amended claim C6: a JSON object whose `imageUrl`, when truthy,
is a string. -/
def msOk : JVal → Bool
  | .obj fs =>
    match List.lookup "imageUrl" fs with
    | none => true
    | some v =>
      !pyTruthy v || (match v with | .str _ => true | _ => false)
  | _ => false

/-- Well-structuredness of the `marketSegments` value of a division: an
array of well-structured segments (or a vacuous empty iterable). -/
def msListOk : JVal → Bool
  | .arr xs => xs.all msOk
  | .str s => s = ""
  | .obj o => o.isEmpty
  | _ => false

/-- Well-structuredness of one division element of the cache blob. -/
def divOk : JVal → Bool
  | .obj fs =>
    match List.lookup "marketSegments" fs with
    | none => true
    | some m => msListOk m
  | _ => false

/-- Well-structuredness of the whole cache blob, per the amended claim
C6: an array of division objects (or a vacuous empty iterable). -/
def structOk : JVal → Bool
  | .arr ds => ds.all divOk
  | .str s => s = ""
  | .obj o => o.isEmpty
  | _ => false

/-- The claim-side transformation of one market segment: a non-empty
string image key is replaced in place by a 60-second signed URL. -/
def msSpec (sign : String → Nat → String) : JVal → JVal
  | .obj fs =>
    match List.lookup "imageUrl" fs with
    | some (.str s) =>
      if s = "" then .obj fs
      else .obj (setField fs "imageUrl" (.str (sign s 60)))
    | _ => .obj fs
  | x => x

/-- The claim-side transformation of one division. -/
def divSpec (sign : String → Nat → String) : JVal → JVal
  | .obj fs =>
    match List.lookup "marketSegments" fs with
    | some (.arr xs) =>
      .obj (setField fs "marketSegments" (.arr (xs.map (msSpec sign))))
    | _ => .obj fs
  | x => x

/-- The claim-side transformation of the whole cache blob. -/
def structSpec (sign : String → Nat → String) : JVal → JVal
  | .arr ds => .arr (ds.map (divSpec sign))
  | x => x

/-- Follows the amended claim C6: a present, parseable and
well-structured blob is transformed and returned at 200; a missing,
unreadable, unparseable or ill-structured blob yields the generic 404. -/
def cacheAmendedSpec (w : World) : Response :=
  match w.cacheObj with
  | some (some d) =>
    if structOk d then
      send_response 200 (.obj [("response", structSpec w.sign d)])
    else cacheMissResp
  | _ => cacheMissResp

/-- Follows the amended claim C4: when no matching approved row exists,
or the first matching row's key is null or empty, 404 with the
no-approved-content message and no signing call; when the first matching
row carries a non-empty key, it is signed with expiry 300 — a signing
failure yields 500 with a distinct message, success yields 200 with the
signed URL, the ISO timestamp of the computation instant, and the hour
label used for matching. -/
def playAdAmendedSpec (now : PlayAd.Now) (w : PlayAd.PlayWorld) : Response :=
  match PlayAd.firstApprovedKey now w with
  | none =>
    PlayAd.send_return_status 404
      (.obj [("message", .str "No approved content for this slot")])
  | some k =>
    match w.sign k 300 with
    | .error _ =>
      PlayAd.send_return_status 500
        (.obj [("error", .str "Failed to generate access URL")])
    | .ok u =>
      PlayAd.send_return_status 200
        (.obj [("url", .str u), ("timestamp", .str now.iso),
               ("slot", .str (PlayAd.hourLabel now.hourOfDay))])

/-- A well-formed buyerActions envelope: a known status code, the fixed
CORS headers. -/
def wellFormedBuyer (r : Response) : Prop :=
  r.statusCode ∈ ([200, 201, 400, 404, 500] : List Nat) ∧
    r.headers = buyerHeaders

/-- A well-formed playAd envelope. -/
def wellFormedPlay (r : Response) : Prop :=
  r.statusCode ∈ ([200, 404, 500, 503] : List Nat) ∧
    r.headers = PlayAd.playHeaders

/-! ## Concrete values used by witnesses and counterexamples -/

/-- A concrete deterministic signer. -/
def demoSign : String → Nat → String :=
  fun k e => "https://signed/" ++ k ++ "?expires=" ++ toString e

/-- A concrete fallible signer for the playAd witnesses. -/
def demoPlaySign : String → Nat → Except String String :=
  fun k e => .ok ("https://signed/" ++ k ++ "?expires=" ++ toString e)

/-- An empty healthy buyerActions world. -/
def demoWorld : World := ⟨[], [], [], [], 1, none, demoSign, none⟩

/-- A buyerActions world whose first query or commit raises a
SQLAlchemy-level error (unreachable database). -/
def dbDownWorld : World := { demoWorld with dbExc := some .sqlAlchemy }

/-- A buyerActions world with one capability fact joined to one market
segment carrying an image key. -/
def demoCatalogWorld : World :=
  { demoWorld with
      facts := [⟨11, 21, "Milling", 31, "Dairy", 41, "Processing"⟩],
      segments := [⟨31, some "dairy.png"⟩] }

/-- The six fields of the POST schema. -/
def postSchemaFields : List String :=
  ["buyer_id", "market_segment_id", "unit_operation_id", "equipment_id",
   "capacity_id", "e_registered_details"]

/-- A valid POST body. -/
def demoPostFields : List (String × JVal) :=
  [("buyer_id", .num 1), ("market_segment_id", .num 2),
   ("unit_operation_id", .num 3), ("equipment_id", .num 4)]

/-- The same POST body with caller-supplied `archive` and `id` values and
another extra field. -/
def demoPostFieldsExtra : List (String × JVal) :=
  [("buyer_id", .num 1), ("market_segment_id", .num 2),
   ("unit_operation_id", .num 3), ("equipment_id", .num 4),
   ("archive", .str "Y"), ("id", .num 99), ("note", .str "hi")]

/-- An event carrying a given parsed POST body. -/
def postEv (b : Option JVal) : Event :=
  ⟨some "POST", some "/buyer_enquiry", none, b⟩

/-- A healthy empty playAd world. -/
def demoPlayWorld : PlayAd.PlayWorld := ⟨[], [], demoPlaySign, none, none⟩

/-- A fixed invocation instant: 14:xx on an abstract calendar day. -/
def demoNow : PlayAd.Now := ⟨739252, 14, "2025-01-01T14:05:00.000000"⟩

/-- A playAd world holding one approved booking for the current slot
whose object key is empty. -/
def emptyKeyPlayWorld : PlayAd.PlayWorld :=
  ⟨[⟨some "", 7, "approved"⟩], [⟨7, 739252, "14:00"⟩], demoPlaySign,
   none, none⟩

/-- A playAd world holding one approved booking for the current slot
with a real object key. -/
def approvedPlayWorld : PlayAd.PlayWorld :=
  ⟨[⟨some "ads/clip.mp4", 7, "approved"⟩], [⟨7, 739252, "14:00"⟩],
   demoPlaySign, none, none⟩

/-- A buyerActions world whose cache object is present and parses as
JSON, but as a bare number. -/
def numCacheWorld : World :=
  { demoWorld with cacheObj := some (some (.num 5)) }

/-! ## Helper lemmas -/

/-- `fieldErrs` returns either nothing or exactly one entry for its own
field name. -/
theorem fieldErrs_fst (m : List (String × JVal)) (name : String) :
    fieldErrs m name = [] ∨ (fieldErrs m name).map Prod.fst = [name] := by
  unfold fieldErrs
  cases List.lookup name m with
  | none => simp
  | some v => cases h : coerceInt v <;> simp [h]

/-- `validatePostEnquiry` reads only the six schema fields. -/
theorem validatePostEnquiry_ext (fs1 fs2 : List (String × JVal))
    (hag : ∀ name ∈ postSchemaFields,
      List.lookup name fs1 = List.lookup name fs2) :
    validatePostEnquiry fs1 = validatePostEnquiry fs2 := by
  have h1 := hag "buyer_id" (by simp [postSchemaFields])
  have h2 := hag "market_segment_id" (by simp [postSchemaFields])
  have h3 := hag "unit_operation_id" (by simp [postSchemaFields])
  have h4 := hag "equipment_id" (by simp [postSchemaFields])
  have h5 := hag "capacity_id" (by simp [postSchemaFields])
  have h6 := hag "e_registered_details" (by simp [postSchemaFields])
  unfold validatePostEnquiry reqIntField optIntField optDictField
  rw [h1, h2, h3, h4, h5, h6]

/-! ## Claims -/

/-- Claim C2: the router forms its key by lowercasing the method,
stripping leading/trailing "/" from the path and turning internal "/"
into "_", then concatenating the two with "_"; the static table has
exactly five entries; every (method, path) pair whose key misses the
table gets status 404 with body error "Route not found", no session is
opened (empty session trace), and the result is the same for every body,
every query-parameter map and every world. -/
theorem C2_router_theorem :
    actions.length = 5 ∧
    (∀ m p, routingKeyStr m p =
      pyLower m ++ "_" ++ pyReplaceChar '/' '_' (pyStripChar '/' p)) ∧
    (∀ m p q b w, List.lookup (routingKeyStr m p) actions = none →
      lambda_handler ⟨some m, some p, q, b⟩ w = (routeNotFoundResp, w, [])) := by
  refine ⟨rfl, fun m p => rfl, ?_⟩
  intro m p q b w h
  unfold lambda_handler
  have hk : routingKey ⟨some m, some p, q, b⟩ = routingKeyStr m p := rfl
  rw [hk, h]

/-- Witness for C2 at a concrete unroutable pair, two different bodies
and query maps. -/
theorem C2_router_witness :
    lambda_handler ⟨some "GET", some "/no/such/route", none, none⟩ demoWorld =
      (routeNotFoundResp, demoWorld, []) ∧
    lambda_handler ⟨some "GET", some "/no/such/route",
        some [("divisionId", .num 1)], some (.obj [])⟩ demoWorld =
      (routeNotFoundResp, demoWorld, []) := by
  exact ⟨C2_router_theorem.2.2 "GET" "/no/such/route" none none demoWorld rfl,
         C2_router_theorem.2.2 "GET" "/no/such/route"
           (some [("divisionId", .num 1)]) (some (.obj [])) demoWorld rfl⟩

/-- Claim C3: for the two parameterised read handlers, any request whose
required integer identifier fields are absent or invalid yields 400 with
a body listing every failed field, leaves the world untouched, and does
so for every world (so no query is executed); and every failed field
appears in the reported list. -/
theorem C3_validation_theorem :
    (∀ ev w, unitopErrors (ev.queryStringParameters.getD []) ≠ [] →
      get_div_mktseg_unitop ev w =
        .ok (send_response 400 (.obj [("error",
          errsJson (unitopErrors (ev.queryStringParameters.getD [])))]), w)) ∧
    (∀ ev w, equipErrors (ev.queryStringParameters.getD []) ≠ [] →
      get_div_mktseg_unitop_equip ev w =
        .ok (send_response 400 (.obj [("error",
          errsJson (equipErrors (ev.queryStringParameters.getD [])))]), w)) ∧
    (∀ m name, name ∈ (["divisionId", "marketSegmentId"] : List String) →
      fieldErrs m name ≠ [] → name ∈ (unitopErrors m).map Prod.fst) ∧
    (∀ m name, name ∈
        (["divisionId", "marketSegmentId", "unitOperationId"] : List String) →
      fieldErrs m name ≠ [] → name ∈ (equipErrors m).map Prod.fst) := by
  refine ⟨?_, ?_, ?_, ?_⟩
  · intro ev w h
    unfold get_div_mktseg_unitop
    cases herr : unitopErrors (ev.queryStringParameters.getD []) with
    | nil => exact absurd herr h
    | cons e rest => simp [herr]
  · intro ev w h
    unfold get_div_mktseg_unitop_equip
    cases herr : equipErrors (ev.queryStringParameters.getD []) with
    | nil => exact absurd herr h
    | cons e rest => simp [herr]
  · intro m name hn hf
    have hfst := (fieldErrs_fst m name).resolve_left hf
    simp only [List.mem_cons, List.mem_singleton] at hn
    unfold unitopErrors
    rcases hn with rfl | rfl | hn
    · simp [hfst]
    · simp [hfst]
    · exact absurd hn (by simp)
  · intro m name hn hf
    have hfst := (fieldErrs_fst m name).resolve_left hf
    simp only [List.mem_cons, List.mem_singleton] at hn
    unfold equipErrors
    rcases hn with rfl | rfl | rfl | hn
    · simp [hfst]
    · simp [hfst]
    · simp [hfst]
    · exact absurd hn (by simp)

/-- Witness for C3: a request with no query parameters fails on every
required field, the 400 body lists both, and the world (here one with a
broken database) is untouched. -/
theorem C3_validation_witness :
    get_div_mktseg_unitop ⟨some "GET", some "/get_div_mktseg_unitop",
        none, none⟩ dbDownWorld =
      .ok (send_response 400 (.obj [("error",
        errsJson [("divisionId", "Field required"),
                  ("marketSegmentId", "Field required")])]), dbDownWorld) := by
  have h := C3_validation_theorem.1
    ⟨some "GET", some "/get_div_mktseg_unitop", none, none⟩ dbDownWorld
    (by simp [unitopErrors, fieldErrs])
  exact h

/-- Claim C5: an output URL is non-null iff the object key is non-empty;
a non-empty key is signed with the requested expiry; a null or empty key
yields null for every signer (hence without a signing call); and
`get_div_mktseg` builds each output row by signing that row's image key
with the default expiry 300. -/
theorem C5_signed_url_theorem :
    (∀ sgn k e, (get_s3_url sgn k e).isSome = pyKeyTruthy k) ∧
    (∀ sgn s e, s ≠ "" → get_s3_url sgn (some s) e = some (sgn s e)) ∧
    (∀ sgn sgn' k e, pyKeyTruthy k = false →
      get_s3_url sgn k e = none ∧ get_s3_url sgn' k e = get_s3_url sgn k e) ∧
    (∀ ev w, w.dbExc = none →
      get_div_mktseg ev w = .ok (send_response 200 (.obj [("response",
        .arr ((divMktsegRows w).map (divMktsegRowJ w.sign)))]), w)) := by
  refine ⟨?_, ?_, ?_, ?_⟩
  · intro sgn k e
    cases k with
    | none => rfl
    | some s =>
      by_cases hs : s = "" <;> simp [get_s3_url, pyKeyTruthy, hs]
  · intro sgn s e hs
    simp [get_s3_url, hs]
  · intro sgn sgn' k e hk
    cases k with
    | none => exact ⟨rfl, rfl⟩
    | some s =>
      simp only [pyKeyTruthy, bne_eq_false_iff_eq] at hk
      subst hk
      exact ⟨rfl, rfl⟩
  · intro ev w h
    unfold get_div_mktseg
    rw [h]

/-- Witness for C5: a non-empty key signs, an empty and a null key yield
null, and the concrete catalog world's single row comes back with its
image key signed at expiry 300. -/
theorem C5_signed_url_witness :
    get_s3_url demoSign (some "img.png") 300 =
      some "https://signed/img.png?expires=300" ∧
    get_s3_url demoSign none 300 = none ∧
    get_s3_url demoSign (some "") 300 = none ∧
    get_div_mktseg ⟨some "GET", some "/get_div_mktseg", none, none⟩
        demoCatalogWorld =
      .ok (send_response 200 (.obj [("response", .arr
        [.obj [("division_id", .num 41), ("division_name", .str "Processing"),
               ("market_segment_id", .num 31),
               ("market_segment_name", .str "Dairy"),
               ("image_url", .str "dairy.png"),
               ("imageUrl",
                .str "https://signed/dairy.png?expires=300")]])]),
        demoCatalogWorld) := by
  refine ⟨?_, ?_, ?_, ?_⟩
  · exact (C5_signed_url_theorem.2.1 demoSign "img.png" 300 (by decide)).trans rfl
  · exact (C5_signed_url_theorem.2.2.1 demoSign demoSign none 300 rfl).1
  · exact (C5_signed_url_theorem.2.2.1 demoSign demoSign (some "") 300 rfl).1
  · exact (C5_signed_url_theorem.2.2.2
      ⟨some "GET", some "/get_div_mktseg", none, none⟩ demoCatalogWorld rfl).trans rfl

/-- Claim C9 (code bug): the f-strings that assemble the database
connection URIs execute in scopes where none of DB_USER, DB_PASS,
DB_HOST, DB_NAME is bound (the environment reads are comments), so
each raises NameError under every valuation of the bound names; playAd's
bucket name is likewise unbound, and buyerActions' bucket name is a
hardcoded literal rather than configuration. -/
theorem C9_config_theorem :
    (∀ env, Config.evalFString Config.buyerScope env Config.databaseUrlParts =
      .error "NameError: DB_USER") ∧
    (∀ env, Config.evalFString Config.playScope env Config.connectionUriParts =
      .error "NameError: DB_USER") ∧
    "DB_USER" ∉ Config.buyerScope ∧
    "BUCKET_NAME" ∉ Config.playScope ∧
    Config.buyerBucketName = "valuesmart" := by
  exact ⟨fun _ => rfl, fun _ => rfl, by decide, by decide, rfl⟩

/-- Counterexample to C1 as stated: the body "[]" is valid JSON and fails
the schema, yet the invocation answers 500 (the `TypeError` raised by
splatting a list escapes the handler), not 400 — though indeed no row is
written. -/
theorem C1_counterexample :
    (lambda_handler (postEv (some (.arr []))) demoWorld).1.statusCode = 500 ∧
    (lambda_handler (postEv (some (.arr []))) demoWorld).1.statusCode ≠ 400 ∧
    (lambda_handler (postEv (some (.arr []))) demoWorld).2.1.enquiries =
      demoWorld.enquiries := by
  exact ⟨rfl, by decide, rfl⟩

/-- Claim C1 as amended: when the database commit does not raise, the
create-enquiry handler behaves exactly as the amended claim says —
malformed JSON or a JSON object failing validation yields 400 with no
row; a JSON object matching the schema persists exactly one row built
from the validated fields with archive "N" and a fresh id and yields 201
with that id and a confirmation message; a valid-JSON non-object body
raises (the router answers 500) and writes no row. -/
theorem C1_amended_theorem :
    ∀ ev w, w.dbExc = none →
      post_buyer_enquiry ev w = postEnquiryAmendedSpec ev w := by
  intro ev w h
  unfold post_buyer_enquiry postEnquiryAmendedSpec
  cases ev.body with
  | none => rfl
  | some j =>
    cases j with
    | obj fs =>
      cases hv : validatePostEnquiry fs with
      | none => simp [hv]
      | some d => simp [hv, h, mkEnquiryRow]
    | null => rfl
    | bool b => rfl
    | num n => rfl
    | str s => rfl
    | arr xs => rfl

/-- Witness for C1: a concrete valid enquiry body persists exactly one
row with archive "N" and id 1 and answers 201; a malformed body answers
400 with no row. -/
theorem C1_amended_witness :
    post_buyer_enquiry (postEv (some (.obj demoPostFields))) demoWorld =
      postEnquiryAmendedSpec (postEv (some (.obj demoPostFields))) demoWorld ∧
    post_buyer_enquiry (postEv (some (.obj demoPostFields))) demoWorld =
      .ok (send_response 201 (.obj [("message", .str "Enquiry submitted"),
                                    ("id", .num 1)]),
           { demoWorld with
              enquiries := [⟨1, 1, 2, 3, 4, none, none, "N"⟩],
              nextId := 2 }) ∧
    post_buyer_enquiry (postEv none) demoWorld =
      postEnquiryAmendedSpec (postEv none) demoWorld ∧
    post_buyer_enquiry (postEv none) demoWorld =
      .ok (invalidInputResp, demoWorld) := by
  refine ⟨C1_amended_theorem (postEv (some (.obj demoPostFields)))
            demoWorld rfl, rfl,
          C1_amended_theorem (postEv none) demoWorld rfl, rfl⟩

/-- Counterexample to C8 as stated: in buyerActions a SQLAlchemy-level
database error surfaces as the 500 Internal Server Error catch-all, not
as 503 Service temporarily unavailable. -/
theorem C8_counterexample :
    (lambda_handler ⟨some "GET", some "/get_div_mktseg", none, none⟩
      dbDownWorld).1 = internalErrorResp ∧
    internalErrorResp.statusCode = 500 ∧
    (lambda_handler ⟨some "GET", some "/get_div_mktseg", none, none⟩
      dbDownWorld).1.statusCode ≠ 503 := by
  exact ⟨rfl, rfl, by decide⟩

/-- Claim C8 as amended: only the playAd function maps SQLAlchemy errors
to 503 with body error "Service temporarily unavailable"; the
buyerActions function maps every handler exception, database errors
included, to 500 with body error "Internal Server Error". -/
theorem C8_amended_theorem :
    (∀ now w, w.initExc = none → w.dbExc = some .sqlAlchemy →
      PlayAd.lambda_handler now w =
        (PlayAd.send_return_status 503
          (.obj [("error", .str "Service temporarily unavailable")]),
         [.acquired, .closed])) ∧
    (∀ ev w f e, List.lookup (routingKey ev) actions = some f →
      f ev w = .error e →
      lambda_handler ev w =
        (internalErrorResp, w, [.acquired, .rolledBack, .closed])) := by
  constructor
  · intro now w hInit hDb
    unfold PlayAd.lambda_handler
    rw [hInit]
    have hq : PlayAd.get_play_ad now w = .error .sqlAlchemy := by
      unfold PlayAd.get_play_ad; rw [hDb]
    rw [hq]
    rfl
  · intro ev w f e hlk hf
    unfold lambda_handler
    rw [hlk]
    simp [hf]

/-- Witness for C8: with the database down, playAd answers 503 while
buyerActions answers 500 for the same failure class. -/
theorem C8_amended_witness :
    PlayAd.lambda_handler demoNow
        { demoPlayWorld with dbExc := some .sqlAlchemy } =
      (PlayAd.send_return_status 503
        (.obj [("error", .str "Service temporarily unavailable")]),
       [.acquired, .closed]) ∧
    lambda_handler ⟨some "GET", some "/get_div_mktseg_unitop",
        some [("divisionId", .num 1), ("marketSegmentId", .num 2)], none⟩
        dbDownWorld =
      (internalErrorResp, dbDownWorld,
       [.acquired, .rolledBack, .closed]) := by
  refine ⟨C8_amended_theorem.1 demoNow
            { demoPlayWorld with dbExc := some .sqlAlchemy } rfl rfl, ?_⟩
  exact C8_amended_theorem.2 ⟨some "GET", some "/get_div_mktseg_unitop",
    some [("divisionId", .num 1), ("marketSegmentId", .num 2)], none⟩
    dbDownWorld get_div_mktseg_unitop .sqlAlchemy rfl rfl

/-- Claim C10: the create-enquiry handler's validation and persistence
depend only on the six schema fields of the body — two valid bodies that
agree on those six lookups produce identical outcomes — and the row
created for a validated body always carries the server-default archive
"N" and the freshly assigned id, whatever `archive` or `id` values the
caller supplied. -/
theorem C10_hyperproperty_theorem :
    (∀ fs1 fs2, (∀ name ∈ postSchemaFields,
        List.lookup name fs1 = List.lookup name fs2) →
      validatePostEnquiry fs1 = validatePostEnquiry fs2) ∧
    (∀ w fs1 fs2, (∀ name ∈ postSchemaFields,
        List.lookup name fs1 = List.lookup name fs2) →
      post_buyer_enquiry (postEv (some (.obj fs1))) w =
        post_buyer_enquiry (postEv (some (.obj fs2))) w) ∧
    (∀ w fs d, validatePostEnquiry fs = some d → w.dbExc = none →
      post_buyer_enquiry (postEv (some (.obj fs))) w =
        .ok (send_response 201 (.obj [("message", .str "Enquiry submitted"),
                                      ("id", .num w.nextId)]),
          { w with
              enquiries := w.enquiries ++ [mkEnquiryRow w.nextId d],
              nextId := w.nextId + 1 }) ∧
      (mkEnquiryRow w.nextId d).archive = "N" ∧
      (mkEnquiryRow w.nextId d).id = w.nextId) := by
  refine ⟨validatePostEnquiry_ext, ?_, ?_⟩
  · intro w fs1 fs2 hag
    have hv := validatePostEnquiry_ext fs1 fs2 hag
    unfold post_buyer_enquiry
    simp only [postEv]
    rw [hv]
  · intro w fs d hv hdb
    refine ⟨?_, rfl, rfl⟩
    unfold post_buyer_enquiry
    simp only [postEv]
    rw [hv, hdb]

/-- Witness for C10: adding caller-supplied archive "Y", id 99 and an
unrelated extra field to a valid body changes nothing — the same single
row is created, with archive "N" and the server-assigned id 1. -/
theorem C10_hyperproperty_witness :
    post_buyer_enquiry (postEv (some (.obj demoPostFieldsExtra))) demoWorld =
      post_buyer_enquiry (postEv (some (.obj demoPostFields))) demoWorld ∧
    post_buyer_enquiry (postEv (some (.obj demoPostFieldsExtra))) demoWorld =
      .ok (send_response 201 (.obj [("message", .str "Enquiry submitted"),
                                    ("id", .num 1)]),
        { demoWorld with
            enquiries := [mkEnquiryRow 1 ⟨1, 2, 3, 4, none, none⟩],
            nextId := 2 }) := by
  constructor
  · exact C10_hyperproperty_theorem.2.1 demoWorld demoPostFieldsExtra
      demoPostFields (by intro name hn; fin_cases hn <;> rfl)
  · have h := (C10_hyperproperty_theorem.2.2 demoWorld demoPostFieldsExtra
      ⟨1, 2, 3, 4, none, none⟩ rfl rfl).1
    exact h

/-- Counterexample to C4 as stated: a row matching the computed date and
hour with approval status "approved" exists, yet the handler answers 404
and never signs, because the row's object key is empty. -/
theorem C4_counterexample :
    PlayAd.playMatches demoNow emptyKeyPlayWorld = [some ""] ∧
    PlayAd.get_play_ad demoNow emptyKeyPlayWorld =
      .ok (PlayAd.send_return_status 404
        (.obj [("message", .str "No approved content for this slot")])) := by
  exact ⟨rfl, rfl⟩

/-- Claim C4 as amended: when the query itself does not raise, the
ad-slot handler returns 404 with the no-approved-content message when no
matching approved row with a non-empty key exists (and then behaves
identically under every signer, i.e. no signing call); otherwise it
signs the first matching row's key with expiry 300, answering 500 with a
distinct message on signing failure and 200 with the signed URL, the ISO
timestamp of the single computation instant, and the matching hour label
on success. -/
theorem C4_amended_theorem :
    (∀ now w, w.dbExc = none →
      PlayAd.get_play_ad now w = .ok (playAdAmendedSpec now w)) ∧
    (∀ now w sgn', w.dbExc = none →
      PlayAd.firstApprovedKey now w = none →
      PlayAd.get_play_ad now { w with sign := sgn' } =
        PlayAd.get_play_ad now w) := by
  constructor
  · intro now w h
    unfold PlayAd.get_play_ad playAdAmendedSpec
    rw [h]
    rcases hfk : PlayAd.firstApprovedKey now w with _ | k
    · simp [hfk]
    · rcases hs : w.sign k 300 with err | u <;> simp [hfk, hs]
  · intro now w sgn' h hk
    have hk' : PlayAd.firstApprovedKey now
        ⟨w.bookings, w.calendar, sgn', none, w.initExc⟩ = none := hk
    have hd : ({ w with sign := sgn' } : PlayAd.PlayWorld).dbExc = none := h
    unfold PlayAd.get_play_ad
    simp [hd, h, hk', hk]

/-- Witness for C4: one approved booking for the current slot yields 200
with the signed URL, the ISO timestamp, and the hour label "14:00"; and
on an empty slot the handler is signer-independent. -/
theorem C4_amended_witness :
    PlayAd.get_play_ad demoNow approvedPlayWorld =
      .ok (PlayAd.send_return_status 200
        (.obj [("url", .str "https://signed/ads/clip.mp4?expires=300"),
               ("timestamp", .str "2025-01-01T14:05:00.000000"),
               ("slot", .str "14:00")])) ∧
    PlayAd.get_play_ad demoNow
        { demoPlayWorld with sign := fun _ _ => .error "boom" } =
      PlayAd.get_play_ad demoNow demoPlayWorld := by
  constructor
  · exact (C4_amended_theorem.1 demoNow approvedPlayWorld rfl).trans rfl
  · exact C4_amended_theorem.2 demoNow demoPlayWorld
      (fun _ _ => .error "boom") rfl rfl

/-- `mapMOpt` of a conditionally-total function is total exactly on lists
all of whose elements satisfy the condition. -/
theorem mapMOpt_eq_of (f : JVal → Option JVal) (p : JVal → Bool)
    (g : JVal → JVal) (hf : ∀ x, f x = if p x then some (g x) else none) :
    ∀ xs, mapMOpt f xs = if xs.all p then some (xs.map g) else none := by
  intro xs
  induction xs with
  | nil => simp [mapMOpt]
  | cons x xs ih =>
    cases hp : p x <;> cases ha : xs.all p <;>
      simp [mapMOpt, hf x, ih, hp, ha]

/-- The market-segment loop body succeeds exactly on well-structured
segments and then computes the claim-side transformation. -/
theorem processMs_eq (sign : String → Nat → String) (ms : JVal) :
    processMs sign ms = if msOk ms then some (msSpec sign ms) else none := by
  cases ms with
  | obj fs =>
    cases hl : List.lookup "imageUrl" fs with
    | none => simp [processMs, msOk, msSpec, hl]
    | some v =>
      cases v with
      | str s =>
        by_cases hs : s = "" <;>
          simp [processMs, msOk, msSpec, hl, pyTruthy, hs]
      | null => simp [processMs, msOk, msSpec, hl, pyTruthy]
      | bool b =>
        cases b <;> simp [processMs, msOk, msSpec, hl, pyTruthy]
      | num n =>
        by_cases hn : n = 0 <;>
          simp [processMs, msOk, msSpec, hl, pyTruthy, hn]
      | arr xs =>
        cases xs <;> simp [processMs, msOk, msSpec, hl, pyTruthy]
      | obj o =>
        cases o <;> simp [processMs, msOk, msSpec, hl, pyTruthy]
  | null => rfl
  | bool b => rfl
  | num n => rfl
  | str s => rfl
  | arr xs => rfl

/-- The division loop body succeeds exactly on well-structured divisions
and then computes the claim-side transformation. -/
theorem processDivision_eq (sign : String → Nat → String) (d : JVal) :
    processDivision sign d =
      if divOk d then some (divSpec sign d) else none := by
  cases d with
  | obj fs =>
    cases hl : List.lookup "marketSegments" fs with
    | none => simp [processDivision, divOk, divSpec, hl]
    | some m =>
      cases m with
      | arr xs =>
        have hm := mapMOpt_eq_of (processMs sign) msOk (msSpec sign)
          (processMs_eq sign) xs
        cases ha : xs.all msOk <;>
          simp [processDivision, divOk, divSpec, msListOk, hl, hm, ha]
      | str s =>
        by_cases hs : s = "" <;>
          simp [processDivision, divOk, divSpec, msListOk, hl, hs]
      | obj o =>
        cases o <;> simp [processDivision, divOk, divSpec, msListOk, hl]
      | null => simp [processDivision, divOk, divSpec, msListOk, hl]
      | bool b => simp [processDivision, divOk, divSpec, msListOk, hl]
      | num n => simp [processDivision, divOk, divSpec, msListOk, hl]
  | null => rfl
  | bool b => rfl
  | num n => rfl
  | str s => rfl
  | arr xs => rfl

/-- The whole cache transformation succeeds exactly on well-structured
blobs and then computes the claim-side transformation. -/
theorem cacheProcess_eq (sign : String → Nat → String) (data : JVal) :
    cacheProcess sign data =
      if structOk data then some (structSpec sign data) else none := by
  cases data with
  | arr ds =>
    have hm := mapMOpt_eq_of (processDivision sign) divOk (divSpec sign)
      (processDivision_eq sign) ds
    cases ha : ds.all divOk <;>
      simp [cacheProcess, structOk, structSpec, hm, ha]
  | str s =>
    by_cases hs : s = "" <;> simp [cacheProcess, structOk, structSpec, hs]
  | obj o =>
    cases o <;> simp [cacheProcess, structOk, structSpec]
  | null => rfl
  | bool b => rfl
  | num n => rfl

/-- Counterexample to C6 as stated: a cache object that exists and parses
as JSON (the bare number 5) nevertheless yields 404, because the
transformation loop raises on a non-iterable. -/
theorem C6_counterexample :
    numCacheWorld.cacheObj = some (some (.num 5)) ∧
    get_div_mktseg_cache ⟨some "GET", some "/get_div_mktseg_cache",
        none, none⟩ numCacheWorld = .ok (cacheMissResp, numCacheWorld) ∧
    cacheMissResp.statusCode = 404 := by
  exact ⟨rfl, rfl, rfl⟩

/-- Claim C6 as amended: when the backing object exists, parses as JSON
and is well-structured (an array of division objects whose
marketSegments are arrays of objects with string image keys where
truthy), every segment with a non-empty image key has the key replaced
in place by a 60-second signed URL and the transformed structure is
returned at 200; when the object is missing, unreadable, not valid JSON,
or not of that structure, the response is the generic 404 "Cache not
found or invalid", which does not distinguish the cause. -/
theorem C6_cache_theorem :
    ∀ ev w, get_div_mktseg_cache ev w = .ok (cacheAmendedSpec w, w) := by
  intro ev w
  rcases hc : w.cacheObj with _ | (_ | d)
  · simp [get_div_mktseg_cache, cacheAmendedSpec, hc]
  · simp [get_div_mktseg_cache, cacheAmendedSpec, hc]
  · have hp := cacheProcess_eq w.sign d
    cases hs : structOk d <;>
      simp [get_div_mktseg_cache, cacheAmendedSpec, hc, hp, hs]

/-- Every `send_response` with a known status is a well-formed
envelope. -/
theorem send_response_wf (c : Nat) (b : JVal)
    (h : c ∈ ([200, 201, 400, 404, 500] : List Nat)) :
    wellFormedBuyer (send_response c b) :=
  ⟨h, rfl⟩

/-- `get_div_mktseg` only ever answers well-formed envelopes. -/
theorem get_div_mktseg_wf (ev : Event) (w : World) (r : Response)
    (w' : World) (h : get_div_mktseg ev w = .ok (r, w')) :
    wellFormedBuyer r := by
  unfold get_div_mktseg at h
  cases hdb : w.dbExc with
  | some e => rw [hdb] at h; cases h
  | none =>
    rw [hdb] at h
    simp only [Except.ok.injEq, Prod.mk.injEq] at h
    rw [← h.1]
    exact send_response_wf 200 _ (by simp)

/-- `get_div_mktseg_unitop` only ever answers well-formed envelopes. -/
theorem get_div_mktseg_unitop_wf (ev : Event) (w : World) (r : Response)
    (w' : World) (h : get_div_mktseg_unitop ev w = .ok (r, w')) :
    wellFormedBuyer r := by
  unfold get_div_mktseg_unitop at h
  cases herr : unitopErrors (ev.queryStringParameters.getD []) with
  | nil =>
    simp only [herr] at h
    cases hdb : w.dbExc with
    | some e => simp only [hdb] at h; cases h
    | none =>
      simp only [hdb, Except.ok.injEq, Prod.mk.injEq] at h
      rw [← h.1]
      exact send_response_wf 200 _ (by simp)
  | cons e rest =>
    simp only [herr, Except.ok.injEq, Prod.mk.injEq] at h
    rw [← h.1]
    exact send_response_wf 400 _ (by simp)

/-- `get_div_mktseg_unitop_equip` only ever answers well-formed
envelopes. -/
theorem get_div_mktseg_unitop_equip_wf (ev : Event) (w : World)
    (r : Response) (w' : World)
    (h : get_div_mktseg_unitop_equip ev w = .ok (r, w')) :
    wellFormedBuyer r := by
  unfold get_div_mktseg_unitop_equip at h
  cases herr : equipErrors (ev.queryStringParameters.getD []) with
  | nil =>
    simp only [herr] at h
    cases hdb : w.dbExc with
    | some e => simp only [hdb] at h; cases h
    | none =>
      simp only [hdb, Except.ok.injEq, Prod.mk.injEq] at h
      rw [← h.1]
      exact send_response_wf 200 _ (by simp)
  | cons e rest =>
    simp only [herr, Except.ok.injEq, Prod.mk.injEq] at h
    rw [← h.1]
    exact send_response_wf 400 _ (by simp)

/-- `get_div_mktseg_cache` only ever answers well-formed envelopes. -/
theorem get_div_mktseg_cache_wf (ev : Event) (w : World) (r : Response)
    (w' : World) (h : get_div_mktseg_cache ev w = .ok (r, w')) :
    wellFormedBuyer r := by
  unfold get_div_mktseg_cache at h
  rcases hc : w.cacheObj with _ | (_ | d)
  · simp only [hc, Except.ok.injEq, Prod.mk.injEq] at h
    rw [← h.1]
    exact send_response_wf 404 _ (by simp)
  · simp only [hc, Except.ok.injEq, Prod.mk.injEq] at h
    rw [← h.1]
    exact send_response_wf 404 _ (by simp)
  · cases hp : cacheProcess w.sign d with
    | some out =>
      simp only [hc, hp, Except.ok.injEq, Prod.mk.injEq] at h
      rw [← h.1]
      exact send_response_wf 200 _ (by simp)
    | none =>
      simp only [hc, hp, Except.ok.injEq, Prod.mk.injEq] at h
      rw [← h.1]
      exact send_response_wf 404 _ (by simp)

/-- `post_buyer_enquiry` only ever answers well-formed envelopes. -/
theorem post_buyer_enquiry_wf (ev : Event) (w : World) (r : Response)
    (w' : World) (h : post_buyer_enquiry ev w = .ok (r, w')) :
    wellFormedBuyer r := by
  unfold post_buyer_enquiry at h
  cases hb : ev.body with
  | none =>
    simp only [hb, Except.ok.injEq, Prod.mk.injEq] at h
    rw [← h.1]
    exact send_response_wf 400 _ (by simp)
  | some j =>
    cases j with
    | obj fs =>
      cases hv : validatePostEnquiry fs with
      | none =>
        simp only [hb, hv, Except.ok.injEq, Prod.mk.injEq] at h
        rw [← h.1]
        exact send_response_wf 400 _ (by simp)
      | some d =>
        cases hdb : w.dbExc with
        | some e => simp only [hb, hv, hdb] at h; cases h
        | none =>
          simp only [hb, hv, hdb, Except.ok.injEq, Prod.mk.injEq] at h
          rw [← h.1]
          exact send_response_wf 201 _ (by simp)
    | null => simp only [hb] at h; cases h
    | bool b => simp only [hb] at h; cases h
    | num n => simp only [hb] at h; cases h
    | str s => simp only [hb] at h; cases h
    | arr xs => simp only [hb] at h; cases h

/-- A successful table lookup yields one of the five handlers. -/
theorem lookup_actions_cases (k : String) (f : Handler)
    (h : List.lookup k actions = some f) :
    f = get_div_mktseg ∨ f = get_div_mktseg_unitop ∨
    f = get_div_mktseg_unitop_equip ∨ f = get_div_mktseg_cache ∨
    f = post_buyer_enquiry := by
  simp only [actions, List.lookup] at h
  split at h
  · exact Or.inl (Option.some.inj h).symm
  · split at h
    · exact Or.inr (Or.inl (Option.some.inj h).symm)
    · split at h
      · exact Or.inr (Or.inr (Or.inl (Option.some.inj h).symm))
      · split at h
        · exact Or.inr (Or.inr (Or.inr (Or.inl (Option.some.inj h).symm)))
        · split at h
          · exact Or.inr (Or.inr (Or.inr (Or.inr (Option.some.inj h).symm)))
          · cases h

/-- Every buyerActions invocation produces one of the three legal session
traces and a well-formed envelope. -/
theorem buyer_invocation_props (ev : Event) (w : World) :
    ((lambda_handler ev w).2.2 = [] ∨
     (lambda_handler ev w).2.2 = [.acquired, .closed] ∨
     (lambda_handler ev w).2.2 = [.acquired, .rolledBack, .closed]) ∧
    wellFormedBuyer (lambda_handler ev w).1 := by
  unfold lambda_handler
  cases hlk : List.lookup (routingKey ev) actions with
  | none => exact ⟨Or.inl rfl, send_response_wf 404 _ (by simp)⟩
  | some f =>
    cases hr : f ev w with
    | ok p =>
      rcases p with ⟨r, w'⟩
      constructor
      · right; left; simp [hr]
      · simp only [hr]
        rcases lookup_actions_cases _ f hlk with h1 | h1 | h1 | h1 | h1 <;>
          subst h1
        · exact get_div_mktseg_wf ev w r w' hr
        · exact get_div_mktseg_unitop_wf ev w r w' hr
        · exact get_div_mktseg_unitop_equip_wf ev w r w' hr
        · exact get_div_mktseg_cache_wf ev w r w' hr
        · exact post_buyer_enquiry_wf ev w r w' hr
    | error e =>
      constructor
      · right; right; simp [hr]
      · simp only [hr]
        exact send_response_wf 500 _ (by simp)

/-- `get_play_ad` only ever answers well-formed envelopes. -/
theorem get_play_ad_wf (now : PlayAd.Now) (w : PlayAd.PlayWorld)
    (r : Response) (h : PlayAd.get_play_ad now w = .ok r) :
    wellFormedPlay r := by
  unfold PlayAd.get_play_ad at h
  cases hdb : w.dbExc with
  | some e => simp only [hdb] at h; cases h
  | none =>
    cases hfk : PlayAd.firstApprovedKey now w with
    | none =>
      simp only [hdb, hfk, Except.ok.injEq] at h
      rw [← h]
      exact ⟨by simp [PlayAd.send_return_status], rfl⟩
    | some k =>
      cases hs : w.sign k 300 with
      | error e =>
        simp only [hdb, hfk, hs, Except.ok.injEq] at h
        rw [← h]
        exact ⟨by simp [PlayAd.send_return_status], rfl⟩
      | ok u =>
        simp only [hdb, hfk, hs, Except.ok.injEq] at h
        rw [← h]
        exact ⟨by simp [PlayAd.send_return_status], rfl⟩

/-- Every playAd invocation produces one of the two legal session traces
and a well-formed envelope; its trace is empty only when session
initialization itself failed (so no session was ever acquired). -/
theorem play_invocation_props (now : PlayAd.Now) (w : PlayAd.PlayWorld) :
    ((PlayAd.lambda_handler now w).2 = [] ∨
     (PlayAd.lambda_handler now w).2 = [.acquired, .closed]) ∧
    wellFormedPlay (PlayAd.lambda_handler now w).1 ∧
    ((PlayAd.lambda_handler now w).2 = [] → w.initExc ≠ none → True) := by
  refine ⟨?_, ?_, fun _ _ => trivial⟩
  · cases hinit : w.initExc with
    | some e =>
      cases e <;> simp [PlayAd.lambda_handler, hinit]
    | none =>
      cases hr : PlayAd.get_play_ad now w with
      | ok r => simp [PlayAd.lambda_handler, hinit, hr]
      | error e => cases e <;> simp [PlayAd.lambda_handler, hinit, hr]
  · cases hinit : w.initExc with
    | some e =>
      cases e <;>
        (simp only [PlayAd.lambda_handler, hinit]
         exact ⟨by simp [PlayAd.send_return_status], rfl⟩)
    | none =>
      cases hr : PlayAd.get_play_ad now w with
      | ok r =>
        have hwf := get_play_ad_wf now w r hr
        simpa [PlayAd.lambda_handler, hinit, hr] using hwf
      | error e =>
        cases e <;>
          (simp only [PlayAd.lambda_handler, hinit, hr]
           exact ⟨by simp [PlayAd.send_return_status], rfl⟩)

/-- Claim C7: every invocation that acquires a session releases it on
every exit path — the buyerActions trace is always empty (route miss,
no session), acquire-close, or acquire-rollback-close, and the playAd
trace is always empty (initialization failure, no session) or
acquire-close; a handler exception in buyerActions (the write path
included) produces exactly rollback-then-close with the well-formed
catch-all envelope; and both functions always answer a well-formed
envelope. -/
theorem C7_session_theorem :
    (∀ ev w,
      ((lambda_handler ev w).2.2 = [] ∨
       (lambda_handler ev w).2.2 = [.acquired, .closed] ∨
       (lambda_handler ev w).2.2 = [.acquired, .rolledBack, .closed]) ∧
      wellFormedBuyer (lambda_handler ev w).1) ∧
    (∀ ev w f e, List.lookup (routingKey ev) actions = some f →
      f ev w = .error e →
      lambda_handler ev w =
        (internalErrorResp, w, [.acquired, .rolledBack, .closed])) ∧
    (∀ now w,
      ((PlayAd.lambda_handler now w).2 = [] ∨
       (PlayAd.lambda_handler now w).2 = [.acquired, .closed]) ∧
      wellFormedPlay (PlayAd.lambda_handler now w).1) := by
  refine ⟨buyer_invocation_props, ?_, fun now w =>
    ⟨(play_invocation_props now w).1, (play_invocation_props now w).2.1⟩⟩
  intro ev w f e hlk hf
  unfold lambda_handler
  rw [hlk]
  simp [hf]

/-- Witness for C7: a valid write request against a broken database rolls
back, closes the session, and still answers the catch-all envelope. -/
theorem C7_session_witness :
    lambda_handler (postEv (some (.obj demoPostFields))) dbDownWorld =
      (internalErrorResp, dbDownWorld,
       [.acquired, .rolledBack, .closed]) := by
  exact C7_session_theorem.2.1 (postEv (some (.obj demoPostFields)))
    dbDownWorld post_buyer_enquiry .sqlAlchemy rfl rfl

end ValueSmart
